import Mathlib

/-!
Verification of the YouTube hashtag scraper (`scrape_youtube_hashtag.py`).

The script drives a browser, scrolls the hashtag page to load content
(`scroll_to_load`), pulls the embedded `ytInitialData` blob
(`extract_initial_data_with_js`), recursively collects every
`videoRenderer` mapping (`_dig_video_renderers`), normalizes each into a
`VideoItem` (`parse_videos`, with the fragment-concatenation helper
`_text`), and optionally enriches each item with a description fetched
from the video's own page (`enrich_with_descriptions`).

The embedding below mirrors the Python semantics: JSON-like values are a
nested inductive `JVal`; Python `None` is `JVal.null`; fallible
operations return `Except PyErr _`, where `PyErr` names the Python
exception class that would be raised (`AttributeError` for calling
`.get` on a non-dict, `IndexError` for `[0]` on an empty list, and so
on); Python truthiness is the `truthy` predicate; `a or b` is modelled
by branching on `truthy a`.
-/

namespace Scrape

/-- A JSON-like value as produced by `driver.execute_script` marshalling:
dicts, lists, strings, ints, booleans, and `None`. Dicts keep insertion
order, modelled as an association list with distinct keys. -/
inductive JVal where
  | null
  | bool (b : Bool)
  | num (n : Int)
  | str (s : String)
  | arr (xs : List JVal)
  | obj (kvs : List (String × JVal))
deriving Repr, Inhabited

/-- Python exception classes that the modelled code can raise. -/
inductive PyErr where
  | attributeError
  | indexError
  | keyError
  | typeError
  | runtimeError
deriving Repr, DecidableEq

/-- Python dict key lookup (keys are unique, so first match). -/
def olookup (k : String) : List (String × JVal) → Option JVal
  | [] => none
  | (k', v) :: rest => if k' = k then some v else olookup k rest

/-- Python truthiness (`bool(x)`): `None`, `False`, `0`, `""`, `[]` and
`{}` are falsy, everything else is truthy. -/
def truthy : JVal → Bool
  | .null => false
  | .bool b => b
  | .num n => n != 0
  | .str s => !s.isEmpty
  | .arr xs => !xs.isEmpty
  | .obj kvs => !kvs.isEmpty

/-- `d.get(k, default)` on a value known to be a dict. -/
def vrGet (vr : List (String × JVal)) (k : String) (d : JVal) : JVal :=
  (olookup k vr).getD d

/-- `v.get(k, default)`: returns the entry or the default on a dict, and
raises `AttributeError` on any non-dict (no `.get` attribute). -/
def dget (v : JVal) (k : String) (d : JVal) : Except PyErr JVal :=
  match v with
  | .obj kvs => .ok (vrGet kvs k d)
  | _ => .error .attributeError

/-- `v[0]`: first element of a list (`IndexError` when empty), first
character of a string (`IndexError` when empty), `KeyError` on a dict
(its keys are strings, never the int `0`), `TypeError` otherwise. -/
def getitem0 : JVal → Except PyErr JVal
  | .arr [] => .error .indexError
  | .arr (x :: _) => .ok x
  | .str s =>
    match s.data with
    | [] => .error .indexError
    | c :: _ => .ok (.str (String.singleton c))
  | .obj _ => .error .keyError
  | _ => .error .typeError

mutual
/-- Python `repr` of a marshalled value (string escaping elided: the
values reaching it in this program contain no quotes or backslashes). -/
def pyRepr : JVal → String
  | .null => "None"
  | .bool true => "True"
  | .bool false => "False"
  | .num n => toString n
  | .str s => "\x27" ++ s ++ "\x27"
  | .arr xs => "[" ++ pyReprArr xs ++ "]"
  | .obj kvs => "\x7b" ++ pyReprObj kvs ++ "\x7d"

/-- Comma-separated `repr` of list elements. -/
def pyReprArr : List JVal → String
  | [] => ""
  | [x] => pyRepr x
  | x :: rest => pyRepr x ++ ", " ++ pyReprArr rest

/-- Comma-separated `repr` of dict entries. -/
def pyReprObj : List (String × JVal) → String
  | [] => ""
  | [(k, v)] => "\x27" ++ k ++ "\x27: " ++ pyRepr v
  | (k, v) :: rest => "\x27" ++ k ++ "\x27: " ++ pyRepr v ++ ", " ++ pyReprObj rest
end

/-- Python `str(x)`, as used by f-string interpolation: identity on
strings, `repr`-like rendering otherwise. -/
def pyStr : JVal → String
  | .str s => s
  | v => pyRepr v

/-- Evaluation of the generator `(part.get("text", "") for part in parts)`:
`AttributeError` at the first non-dict part. -/
def getTexts : List JVal → Except PyErr (List JVal)
  | [] => .ok []
  | p :: rest =>
    match dget p "text" (.str "") with
    | .error e => .error e
    | .ok t =>
      match getTexts rest with
      | .error e => .error e
      | .ok ts => .ok (t :: ts)

/-- `"".join(ts)`: concatenation, `TypeError` at the first non-string. -/
def joinStrs : List JVal → Except PyErr String
  | [] => .ok ""
  | .str s :: rest =>
    match joinStrs rest with
    | .error e => .error e
    | .ok r => .ok (s ++ r)
  | _ :: _ => .error .typeError

/-- `_text(runs)`: `None` when `runs` is falsy (absent, `None`, or an
empty sequence), otherwise `"".join(part.get("text", "") for part in runs)`.
Iterating a truthy non-list raises: `TypeError` for numbers and booleans,
`AttributeError` for strings and dicts (their items have no `.get`). -/
def _text (runs : JVal) : Except PyErr JVal :=
  if truthy runs then
    match runs with
    | .arr parts =>
      match getTexts parts with
      | .error e => .error e
      | .ok ts =>
        match joinStrs ts with
        | .error e => .error e
        | .ok s => .ok (.str s)
    | .num _ => .error .typeError
    | .bool _ => .error .typeError
    | _ => .error .attributeError
  else .ok .null

/-- `vr.get("title", \x7b\x7d).get("runs", [\x7b\x7d])[0].get("text") or
vr.get("title", \x7b\x7d).get("simpleText") or ""` — the title expression
of `parse_videos`. -/
def titleOf (vr : List (String × JVal)) : Except PyErr JVal :=
  let t := vrGet vr "title" (.obj [])
  match dget t "runs" (.arr [.obj []]) with
  | .error e => .error e
  | .ok runs =>
    match getitem0 runs with
    | .error e => .error e
    | .ok r0 =>
      match dget r0 "text" .null with
      | .error e => .error e
      | .ok a =>
        if truthy a then .ok a
        else
          match dget t "simpleText" .null with
          | .error e => .error e
          | .ok b => .ok (if truthy b then b else .str "")

/-- `_text(vr.get("ownerText", \x7b\x7d).get("runs"))` — the channel-name
expression of `parse_videos`. -/
def channelOf (vr : List (String × JVal)) : Except PyErr JVal :=
  let ot := vrGet vr "ownerText" (.obj [])
  match dget ot "runs" .null with
  | .error e => .error e
  | .ok runs => _text runs

/-- `vr.get("publishedTimeText", \x7b\x7d).get("simpleText") or
_text(vr.get("publishedTimeText", \x7b\x7d).get("runs"))` — the
published-time expression of `parse_videos`. -/
def publishedOf (vr : List (String × JVal)) : Except PyErr JVal :=
  let p := vrGet vr "publishedTimeText" (.obj [])
  match dget p "simpleText" .null with
  | .error e => .error e
  | .ok a =>
    if truthy a then .ok a
    else
      match dget p "runs" .null with
      | .error e => .error e
      | .ok runs => _text runs

/-- `vr.get("viewCountText", \x7b\x7d).get("simpleText") or
_text(vr.get("viewCountText", \x7b\x7d).get("runs")) or
_text(vr.get("shortViewCountText", \x7b\x7d).get("runs"))` — the views
expression of `parse_videos`. -/
def viewsOf (vr : List (String × JVal)) : Except PyErr JVal :=
  let vc := vrGet vr "viewCountText" (.obj [])
  match dget vc "simpleText" .null with
  | .error e => .error e
  | .ok a =>
    if truthy a then .ok a
    else
      match dget vc "runs" .null with
      | .error e => .error e
      | .ok runs =>
        match _text runs with
        | .error e => .error e
        | .ok b =>
          if truthy b then .ok b
          else
            let svc := vrGet vr "shortViewCountText" (.obj [])
            match dget svc "runs" .null with
            | .error e => .error e
            | .ok sruns => _text sruns

/-- `vr.get("lengthText", \x7b\x7d).get("simpleText")` — the duration
expression of `parse_videos`. -/
def durationOf (vr : List (String × JVal)) : Except PyErr JVal :=
  let lt := vrGet vr "lengthText" (.obj [])
  dget lt "simpleText" .null

/-- `vr.get("videoId", "")` — the identifier expression of `parse_videos`. -/
def videoIdOf (vr : List (String × JVal)) : JVal :=
  vrGet vr "videoId" (.str "")

/-- The `VideoItem` dataclass. Fields hold the marshalled values the
Python code stores in them (`JVal.null` for `None`). -/
structure VideoItem where
  title : JVal
  video_id : JVal
  url : JVal
  channel_name : JVal
  published_text : JVal
  views_text : JVal
  duration_text : JVal
  description_text : JVal := JVal.null
deriving Repr, Inhabited

mutual
/-- `_dig_video_renderers(obj)`: on a dict, yield `obj["videoRenderer"]`
when that key holds a dict, then recurse into every value in insertion
order; on a list, recurse into elements in order; nothing otherwise. -/
def _dig_video_renderers : JVal → List (List (String × JVal))
  | .obj kvs =>
    (match olookup "videoRenderer" kvs with
     | some (.obj inner) => [inner]
     | _ => []) ++ digObj kvs
  | .arr xs => digArr xs
  | _ => []

/-- Recursion of `_dig_video_renderers` over `obj.values()`. -/
def digObj : List (String × JVal) → List (List (String × JVal))
  | [] => []
  | (_, v) :: rest => _dig_video_renderers v ++ digObj rest

/-- Recursion of `_dig_video_renderers` over a list's elements. -/
def digArr : List JVal → List (List (String × JVal))
  | [] => []
  | v :: rest => _dig_video_renderers v ++ digArr rest
end

/-- The body of the `parse_videos` loop for one raw record `vr`:
evaluates the field expressions in source order (title first, then the
`videoId` guard with `continue`, then the remaining fields), returning
`none` for a skipped record, `some item` for an emitted one, and the
exception if any field expression raises. -/
def normalizeVR (vr : List (String × JVal)) : Except PyErr (Option VideoItem) :=
  match titleOf vr with
  | .error e => .error e
  | .ok title =>
    if truthy (videoIdOf vr) then
      match channelOf vr with
      | .error e => .error e
      | .ok channel_name =>
        match publishedOf vr with
        | .error e => .error e
        | .ok published_text =>
          match viewsOf vr with
          | .error e => .error e
          | .ok views_text =>
            match durationOf vr with
            | .error e => .error e
            | .ok duration_text =>
              .ok (some {
                title := title
                video_id := videoIdOf vr
                url := .str ("https://www.youtube.com/watch?v=" ++ pyStr (videoIdOf vr))
                channel_name := channel_name
                published_text := published_text
                views_text := views_text
                duration_text := duration_text })
    else .ok none

/-- The `parse_videos` loop over the raw records yielded by
`_dig_video_renderers`, in order; the first exception aborts the run. -/
def parse_list : List (List (String × JVal)) → Except PyErr (List VideoItem)
  | [] => .ok []
  | vr :: rest =>
    match normalizeVR vr with
    | .error e => .error e
    | .ok none => parse_list rest
    | .ok (some it) =>
      match parse_list rest with
      | .error e => .error e
      | .ok items => .ok (it :: items)

/-- `parse_videos(initial_data)`: normalize every discovered raw record,
in discovery order. -/
def parse_videos (initial_data : JVal) : Except PyErr (List VideoItem) :=
  parse_list (_dig_video_renderers initial_data)

/-- The record emitted for one raw record, if any (`none` when the
record is skipped or its processing raises). -/
def emitted (vr : List (String × JVal)) : Option VideoItem :=
  match normalizeVR vr with
  | .ok (some it) => some it
  | _ => none

/-- `extract_initial_data_with_js(driver)`: `data` is the marshalled
value of `window.ytInitialData || null`; a falsy value raises
`RuntimeError("ytInitialData not found on the page")`. -/
def extract_initial_data_with_js (data : JVal) : Except PyErr JVal :=
  if truthy data then .ok data else .error .runtimeError

/-- The Extractor-then-Normalizer stage of `main` (lines 212-213):
`initial_data = extract_initial_data_with_js(driver); items =
parse_videos(initial_data)`, with exceptions propagating. -/
def extract_then_parse (data : JVal) : Except PyErr (List VideoItem) :=
  match extract_initial_data_with_js data with
  | .error e => .error e
  | .ok d => parse_videos d

/-- The `scroll_to_load` loop. `measure j` is the value returned by the
`j`-th evaluation of `document.documentElement.scrollHeight` (the read
before the loop is `measure 0`; the read at the end of iteration `i` is
`measure i`). `last` is `last_height`, `done` counts finished
iterations, and the result is the number of iterations performed. -/
def scrollLoop (measure : Nat → Int) : Nat → Int → Nat → Nat
  | 0, _, done => done
  | k + 1, last, done =>
    if measure (done + 1) = last then done + 1
    else scrollLoop measure k (measure (done + 1)) (done + 1)

/-- `scroll_to_load(driver, max_scrolls)`: read the initial height, then
loop up to `max_scrolls` times, stopping early when a post-iteration
height equals the previous height. Returns iterations performed. -/
def scroll_to_load (measure : Nat → Int) (max_scrolls : Nat) : Nat :=
  scrollLoop measure max_scrolls (measure 0) 0

/-- The body of the `enrich_with_descriptions` loop for one item:
`visit i url` abstracts the whole browser interaction of the `i`-th
visit (open tab, wait, read the meta description or the player-response
fallback); `.ok d` is the computed `desc`, `.error _` any exception the
`except` clause catches, after which `item.description_text` is `None`. -/
def enrichItem (visit : Nat → JVal → Except PyErr JVal) (i : Nat) (it : VideoItem) : VideoItem :=
  { it with description_text :=
      match visit i it.url with
      | .ok d => d
      | .error _ => JVal.null }

/-- The `enrich_with_descriptions` loop, visiting items in order and
numbering visits from `i`. -/
def enrichGo (visit : Nat → JVal → Except PyErr JVal) : Nat → List VideoItem → List VideoItem
  | _, [] => []
  | i, it :: rest => enrichItem visit i it :: enrichGo visit (i + 1) rest

/-- `enrich_with_descriptions(driver, items, lang)`: set each item's
`description_text` from its own page visit, best effort. -/
def enrich_with_descriptions (visit : Nat → JVal → Except PyErr JVal) (items : List VideoItem) : List VideoItem :=
  enrichGo visit 0 items

/-! ### Helper lemmas -/

/-- The field contents of an emitted item: each field of the produced
`VideoItem` is exactly the value of the corresponding source expression,
and the `videoId` guard passed (the identifier is truthy). -/
theorem normalizeVR_fields {vr : List (String × JVal)} {it : VideoItem}
    (h : normalizeVR vr = .ok (some it)) :
    titleOf vr = .ok it.title ∧
    it.video_id = videoIdOf vr ∧
    truthy it.video_id = true ∧
    it.url = .str ("https://www.youtube.com/watch?v=" ++ pyStr it.video_id) ∧
    channelOf vr = .ok it.channel_name ∧
    publishedOf vr = .ok it.published_text ∧
    viewsOf vr = .ok it.views_text ∧
    durationOf vr = .ok it.duration_text ∧
    it.description_text = JVal.null := by
  unfold normalizeVR at h
  repeat' split at h
  all_goals try injection h with h
  all_goals try injection h with h
  all_goals first
    | exact Except.noConfusion h
    | exact Option.noConfusion h
    | (cases h; simp_all)

/-- A successful `parse_list` run returns exactly the emitted record of
each raw record, in input order. -/
theorem parse_list_ok : ∀ {l : List (List (String × JVal))} {items : List VideoItem},
    parse_list l = .ok items → items = l.filterMap emitted
  | [], items, h => by
      simp only [parse_list] at h
      cases h
      rfl
  | vr :: rest, items, h => by
      rw [parse_list] at h
      cases hn : normalizeVR vr with
      | error e => rw [hn] at h; exact Except.noConfusion h
      | ok o =>
        cases o with
        | none =>
            rw [hn] at h
            have := parse_list_ok h
            simp [List.filterMap_cons, emitted, hn, this]
        | some it =>
            rw [hn] at h
            cases hr : parse_list rest with
            | error e => rw [hr] at h; exact Except.noConfusion h
            | ok tailItems =>
                rw [hr] at h
                cases h
                have := parse_list_ok hr
                simp [List.filterMap_cons, emitted, hn, this]

/-- An emitted item comes from a successful, non-skipped normalization. -/
theorem emitted_eq_some {vr : List (String × JVal)} {it : VideoItem}
    (h : emitted vr = some it) : normalizeVR vr = .ok (some it) := by
  unfold emitted at h
  split at h
  · cases h; assumption
  · exact Option.noConfusion h

/-- `digObj` is the left-to-right concatenation of the recursive search
over the dict's values, in insertion order. -/
theorem digObj_eq_flatMap : ∀ kvs : List (String × JVal),
    digObj kvs = (kvs.map Prod.snd).flatMap _dig_video_renderers
  | [] => rfl
  | (_, v) :: rest => by
      simp only [digObj, List.map_cons, List.flatMap_cons, digObj_eq_flatMap rest]

/-- `digArr` is the left-to-right concatenation of the recursive search
over the list's elements, in order. -/
theorem digArr_eq_flatMap : ∀ xs : List JVal,
    digArr xs = xs.flatMap _dig_video_renderers
  | [] => rfl
  | v :: rest => by
      simp only [digArr, List.flatMap_cons, digArr_eq_flatMap rest]

/-- When no post-iteration height repeats within the budget, the scroll
loop spends the whole budget. `done` counts the iterations already
performed, and the running `last_height` is the latest measurement. -/
theorem scrollLoop_full (measure : Nat → Int) :
    ∀ (k done : Nat),
      (∀ j, done ≤ j → j < done + k → measure (j + 1) ≠ measure j) →
      scrollLoop measure k (measure done) done = done + k
  | 0, done, _ => rfl
  | k + 1, done, hne => by
      rw [scrollLoop, if_neg (hne done le_rfl (by omega))]
      rw [show done + (k + 1) = (done + 1) + k by omega]
      exact scrollLoop_full measure k (done + 1)
        (fun j hj1 hj2 => hne j (by omega) (by omega))

/-- When the first repeated height is the one measured after iteration
`kstop + 1`, and that iteration is within the budget, the scroll loop
stops after exactly `kstop + 1` iterations. -/
theorem scrollLoop_stop (measure : Nat → Int) :
    ∀ (k done kstop : Nat),
      done ≤ kstop → kstop < done + k →
      (∀ j, done ≤ j → j < kstop → measure (j + 1) ≠ measure j) →
      measure (kstop + 1) = measure kstop →
      scrollLoop measure k (measure done) done = kstop + 1
  | 0, done, kstop, h1, h2, _, _ => absurd h2 (by omega)
  | k + 1, done, kstop, h1, h2, hne, heq => by
      by_cases hd : done = kstop
      · subst hd
        rw [scrollLoop, if_pos heq]
      · rw [scrollLoop, if_neg (hne done le_rfl (by omega))]
        exact scrollLoop_stop measure k (done + 1) kstop (by omega) (by omega)
          (fun j hj1 hj2 => hne j (by omega) hj2) heq

/-- The enrichment loop keeps the list length. -/
theorem enrichGo_length (visit : Nat → JVal → Except PyErr JVal) :
    ∀ (start : Nat) (items : List VideoItem),
      (enrichGo visit start items).length = items.length
  | _, [] => rfl
  | start, _ :: rest => by
      simp only [enrichGo, List.length_cons, enrichGo_length visit (start + 1) rest]

/-- The enrichment loop acts independently at each position: the item at
index `i` of the result is `enrichItem` of the input item at index `i`,
for the corresponding visit number. -/
theorem enrichGo_getD (visit : Nat → JVal → Except PyErr JVal) (d : VideoItem) :
    ∀ (items : List VideoItem) (start i : Nat), i < items.length →
      (enrichGo visit start items).getD i d = enrichItem visit (start + i) (items.getD i d)
  | [], _, i, h => absurd h (by simp)
  | it :: rest, start, 0, _ => by simp [enrichGo]
  | it :: rest, start, i + 1, h => by
      simp only [enrichGo, List.getD_cons_succ]
      rw [enrichGo_getD visit d rest (start + 1) i (by simpa using h)]
      rw [show start + (i + 1) = (start + 1) + i by omega]

/-! ### Claim theorems -/

/-- Claim C1: every raw record lacking a video identifier (key absent or
empty) is dropped whole by the Normalizer: a successful `parse_videos`
run emits at most as many canonical records as `_dig_video_renderers`
yielded raw records, and every emitted record carries a truthy video
identifier — in particular never the empty string. -/
theorem claim1_missing_id_records_dropped (d : JVal) (items : List VideoItem)
    (h : parse_videos d = .ok items) :
    items.length ≤ (_dig_video_renderers d).length ∧
    ∀ it ∈ items, truthy it.video_id = true ∧ it.video_id ≠ JVal.str "" := by
  have he : items = (_dig_video_renderers d).filterMap emitted := parse_list_ok h
  constructor
  · rw [he]
    exact List.length_filterMap_le _ _
  · intro it hit
    rw [he] at hit
    obtain ⟨vr, _, hvr⟩ := List.mem_filterMap.mp hit
    have hf := normalizeVR_fields (emitted_eq_some hvr)
    refine ⟨hf.2.2.1, fun hcontra => ?_⟩
    have ht := hf.2.2.1
    rw [hcontra] at ht
    exact absurd ht (by decide)

/-- A one-record page state for instantiating claim C1. -/
def pageOneRecord : JVal :=
  .obj [("videoRenderer", .obj [("videoId", .str "abc")])]

/-- The canonical record `parse_videos` emits for `pageOneRecord`. -/
def pageOneItem : VideoItem :=
  { title := .str ""
    video_id := .str "abc"
    url := .str "https://www.youtube.com/watch?v=abc"
    channel_name := .null
    published_text := .null
    views_text := .null
    duration_text := .null
    description_text := .null }

/-- Instantiation of claim C1 on `pageOneRecord`. -/
theorem claim1_witness :
    [pageOneItem].length ≤ (_dig_video_renderers pageOneRecord).length ∧
    ∀ it ∈ [pageOneItem], truthy it.video_id = true ∧ it.video_id ≠ JVal.str "" :=
  claim1_missing_id_records_dropped pageOneRecord [pageOneItem] rfl

/-- Claim C2: a raw page state lacking the required nested data object
(absent or null, hence falsy after the `window.ytInitialData || null`
marshalling) makes the Extractor stage raise `RuntimeError` — never a
successful run, in particular never "zero records found" (`.ok []`). -/
theorem claim2_missing_data_hard_error (data : JVal) (h : truthy data = false) :
    extract_then_parse data = .error .runtimeError ∧
    ∀ items : List VideoItem, extract_then_parse data ≠ .ok items := by
  have hx : extract_initial_data_with_js data = .error .runtimeError := by
    simp [extract_initial_data_with_js, h]
  refine ⟨?_, ?_⟩
  · unfold extract_then_parse
    rw [hx]
  · intro items hc
    unfold extract_then_parse at hc
    rw [hx] at hc
    exact Except.noConfusion hc

/-- Instantiation of claim C2 on the null page state. -/
theorem claim2_witness :
    extract_then_parse JVal.null = .error .runtimeError ∧
    ∀ items : List VideoItem, extract_then_parse JVal.null ≠ .ok items :=
  claim2_missing_data_hard_error JVal.null rfl

/-- Claim C6: the scroll loop stops at the first iteration whose
post-iteration content extent equals the pre-iteration extent, and runs
the whole budget when no consecutive extents repeat. `measure 0` is the
height read before the loop; `measure i` the height read at the end of
iteration `i`; the result counts iterations performed. -/
theorem claim6_loader_early_exit (measure : Nat → Int) (n : Nat) :
    ((∀ j, j < n → measure (j + 1) ≠ measure j) → scroll_to_load measure n = n) ∧
    (∀ k, k < n → measure (k + 1) = measure k →
      (∀ j, j < k → measure (j + 1) ≠ measure j) →
      scroll_to_load measure n = k + 1) := by
  constructor
  · intro hne
    unfold scroll_to_load
    have := scrollLoop_full measure n 0 (fun j _ hj2 => hne j (by omega))
    simpa using this
  · intro k hk heq hne
    unfold scroll_to_load
    have := scrollLoop_stop measure n 0 k (by omega) (by omega) (fun j _ hj2 => hne j hj2) heq
    simpa using this

/-- The content-extent scenario of the spec: initial extent 0, then
post-iteration extents 100, 250, 250, 400. -/
def fixtureExtents : Nat → Int
  | 0 => 0
  | i + 1 => [100, 250, 250, 400].getD i 0

/-- Instantiation of claim C6 on `fixtureExtents` with a 4-iteration
budget: the loop performs exactly 3 iterations (the third reads 250
again), never the fourth. -/
theorem claim6_witness : scroll_to_load fixtureExtents 4 = 2 + 1 ∧ 2 + 1 < 4 :=
  ⟨(claim6_loader_early_exit fixtureExtents 4).2 2 (by decide) (by decide) (by decide),
   by decide⟩

/-- Claim C8: normalization is a pure function of the raw page state; two
applications of `parse_videos` to the same input are identical. -/
theorem claim8_normalizer_pure (d : JVal) : parse_videos d = parse_videos d := rfl

/-- A page state whose single record binds `title.runs` to an empty
sequence, for claim C10. -/
def pageEmptyTitleRuns : JVal :=
  .obj [("videoRenderer", .obj [("title", .obj [("runs", .arr [])]),
                                ("videoId", .str "zzz")])]

/-- Claim C10: `parse_videos` is not total: on a record whose title binds
`"runs"` to an empty sequence, the unguarded `[0]` raises `IndexError`
instead of emitting a record with an empty title. -/
theorem claim10_empty_title_runs_raises :
    parse_videos pageEmptyTitleRuns = .error .indexError := rfl

/-- Claim C3: the traversal is deterministic depth-first, left-to-right,
top-down — at a mapping the recognized record container (if any) is
yielded before the recursion into the mapping's values in insertion
order, and at a sequence the recursion visits elements in order — and a
successful `parse_videos` run emits canonical records in exactly the raw
emission order (`filterMap` keeps order). -/
theorem claim3_traversal_order (d : JVal) (items : List VideoItem)
    (h : parse_videos d = .ok items) :
    items = (_dig_video_renderers d).filterMap emitted ∧
    (∀ kvs : List (String × JVal),
      _dig_video_renderers (.obj kvs) =
        (match olookup "videoRenderer" kvs with
         | some (.obj inner) => [inner]
         | _ => []) ++ (kvs.map Prod.snd).flatMap _dig_video_renderers) ∧
    (∀ xs : List JVal,
      _dig_video_renderers (.arr xs) = xs.flatMap _dig_video_renderers) := by
  refine ⟨parse_list_ok h, fun kvs => ?_, fun xs => ?_⟩
  · simp only [_dig_video_renderers, digObj_eq_flatMap]
  · simp only [_dig_video_renderers, digArr_eq_flatMap]

/-- A two-record page state for instantiating claim C3. -/
def pageTwoRecords : JVal :=
  .arr [.obj [("videoRenderer", .obj [("videoId", .str "v1")])],
        .obj [("videoRenderer", .obj [("videoId", .str "v2")])]]

/-- The canonical records `parse_videos` emits for `pageTwoRecords`. -/
def pageTwoItems : List VideoItem :=
  [{ title := .str ""
     video_id := .str "v1"
     url := .str "https://www.youtube.com/watch?v=v1"
     channel_name := .null
     published_text := .null
     views_text := .null
     duration_text := .null
     description_text := .null },
   { title := .str ""
     video_id := .str "v2"
     url := .str "https://www.youtube.com/watch?v=v2"
     channel_name := .null
     published_text := .null
     views_text := .null
     duration_text := .null
     description_text := .null }]

/-- Instantiation of claim C3 on `pageTwoRecords`: the two records come
out in document order. -/
theorem claim3_witness :
    pageTwoItems = (_dig_video_renderers pageTwoRecords).filterMap emitted :=
  (claim3_traversal_order pageTwoRecords pageTwoItems rfl).1

/-- The end-to-end fixture of claim C7: three record containers, two
with identifiers `abc123` and `def456` and a third with no identifier. -/
def fixtureThree : JVal :=
  .obj [("contents", .arr [
    .obj [("videoRenderer", .obj [("videoId", .str "abc123")])],
    .obj [("videoRenderer", .obj [("videoId", .str "def456")])],
    .obj [("videoRenderer", .obj [("ownerText",
      .obj [("runs", .arr [.obj [("text", .str "chan")]])])])]])]

/-- The first canonical record of `fixtureThree`. -/
def fixtureThreeItem1 : VideoItem :=
  { title := .str ""
    video_id := .str "abc123"
    url := .str "https://www.youtube.com/watch?v=abc123"
    channel_name := .null
    published_text := .null
    views_text := .null
    duration_text := .null
    description_text := .null }

/-- The second canonical record of `fixtureThree`. -/
def fixtureThreeItem2 : VideoItem :=
  { title := .str ""
    video_id := .str "def456"
    url := .str "https://www.youtube.com/watch?v=def456"
    channel_name := .null
    published_text := .null
    views_text := .null
    duration_text := .null
    description_text := .null }

/-- Claim C7: the three-container fixture yields exactly two canonical
records, `abc123` before `def456`, the no-identifier container emits
nothing, and in general a record container with no title field yields a
canonical record whose title is the empty string. -/
theorem claim7_end_to_end_fixture :
    parse_videos fixtureThree = .ok [fixtureThreeItem1, fixtureThreeItem2] ∧
    (∀ (vr : List (String × JVal)) (it : VideoItem),
      olookup "title" vr = none → normalizeVR vr = .ok (some it) →
      it.title = JVal.str "") := by
  refine ⟨rfl, fun vr it hno hn => ?_⟩
  have htitle : titleOf vr = .ok (.str "") := by
    simp [titleOf, dget, vrGet, hno, olookup, getitem0, truthy, Option.getD_none]
  have hf := (normalizeVR_fields hn).1
  rw [htitle] at hf
  injection hf with h
  exact h.symm

/-- A raw record with an identifier but no title field. -/
def noTitleVr : List (String × JVal) := [("videoId", .str "k")]

/-- The canonical record `normalizeVR` emits for `noTitleVr`. -/
def noTitleItem : VideoItem :=
  { title := .str ""
    video_id := .str "k"
    url := .str "https://www.youtube.com/watch?v=k"
    channel_name := .null
    published_text := .null
    views_text := .null
    duration_text := .null
    description_text := .null }

/-- Instantiation of the general part of claim C7 on `noTitleVr`. -/
theorem claim7_witness : noTitleItem.title = JVal.str "" :=
  claim7_end_to_end_fixture.2 noTitleVr noTitleItem rfl rfl

/-- A raw record with both view-count representations as fragment
sequences and no plain-string view field, where the full view-count
fragments concatenate to the empty string. -/
def viewsBothVr : List (String × JVal) :=
  [("videoId", .str "c1"),
   ("viewCountText", .obj [("runs", .arr [.obj [("text", .str "")]])]),
   ("shortViewCountText", .obj [("runs", .arr [.obj [("text", .str "9 views")]])])]

/-- Counterexample to claim C4 as stated: `viewsBothVr` has a view-count
fragment sequence (concatenating to `""`) and a short view-count
fragment sequence and no plain-string view field, yet the canonical
views text is the short concatenation `"9 views"`, not the view-count
concatenation `""` — the falsy empty concatenation falls through the
`or` chain. -/
theorem claim4_counterexample :
    (normalizeVR viewsBothVr).map (Option.map VideoItem.views_text) =
      .ok (some (.str "9 views")) ∧
    _text (.arr [.obj [("text", .str "")]]) = .ok (.str "") ∧
    JVal.str "9 views" ≠ JVal.str "" := by
  refine ⟨rfl, rfl, fun hc => ?_⟩
  injection hc with h
  exact absurd h (by decide)

/-- Claim C4 (amended): when a raw record has no plain-string view field
and its view-count fragment sequence concatenates to a truthy (non-empty)
string `s`, the emitted canonical record's views text is `s`, regardless
of any short view-count representation. (As stated the claim fails: an
empty concatenation is falsy and the chain falls through to the short
fragments — see the counterexample.) -/
theorem claim4_views_precedence (vr vct : List (String × JVal)) (runs : JVal)
    (s : String) (it : VideoItem)
    (hvct : vrGet vr "viewCountText" (.obj []) = .obj vct)
    (hsimple : olookup "simpleText" vct = none)
    (hruns : olookup "runs" vct = some runs)
    (htext : _text runs = .ok (.str s))
    (hs : truthy (.str s) = true)
    (hit : normalizeVR vr = .ok (some it)) :
    it.views_text = .str s := by
  have hse : s.isEmpty = false := by simpa [truthy] using hs
  have hvct' : (olookup "viewCountText" vr).getD (.obj []) = .obj vct := by
    simpa [vrGet] using hvct
  have hv : viewsOf vr = .ok (.str s) := by
    simp [viewsOf, dget, vrGet, hvct', hsimple, hruns, htext, truthy, hse,
      Option.getD_none, Option.getD_some]
  have hf := (normalizeVR_fields hit).2.2.2.2.2.2.1
  rw [hv] at hf
  injection hf with h
  exact h.symm

/-- A raw record with a non-empty view-count fragment sequence, a short
view-count fragment sequence, and no plain-string view field. -/
def viewsFullVr : List (String × JVal) :=
  [("videoId", .str "c2"),
   ("viewCountText", .obj [("runs", .arr [.obj [("text", .str "12 views")]])]),
   ("shortViewCountText", .obj [("runs", .arr [.obj [("text", .str "12K")]])])]

/-- The canonical record `normalizeVR` emits for `viewsFullVr`. -/
def viewsFullItem : VideoItem :=
  { title := .str ""
    video_id := .str "c2"
    url := .str "https://www.youtube.com/watch?v=c2"
    channel_name := .null
    published_text := .null
    views_text := .str "12 views"
    duration_text := .null
    description_text := .null }

/-- Instantiation of amended claim C4 on `viewsFullVr`: the full
view-count concatenation wins over the short one. -/
theorem claim4_witness : viewsFullItem.views_text = .str "12 views" :=
  claim4_views_precedence viewsFullVr
    [("runs", .arr [.obj [("text", .str "12 views")]])]
    (.arr [.obj [("text", .str "12 views")]]) "12 views" viewsFullItem
    rfl rfl rfl rfl rfl rfl

/-- A raw record whose owner-text field is present with an empty runs
sequence. -/
def ownerEmptyRunsVr : List (String × JVal) :=
  [("videoId", .str "c3"), ("ownerText", .obj [("runs", .arr [])])]

/-- Counterexample to claim C5 as stated: a raw record whose owner-text
runs is present but an empty sequence yields `None` (absent channel
name), not the empty string — `_text` treats the falsy empty list like
an absent one, so the two cases are not distinguishable. -/
theorem claim5_counterexample :
    (normalizeVR ownerEmptyRunsVr).map (Option.map VideoItem.channel_name) =
      .ok (some JVal.null) ∧
    JVal.null ≠ JVal.str "" :=
  ⟨rfl, fun hc => JVal.noConfusion hc⟩

/-- Claim C5 (amended): a raw record whose owner-text field is entirely
missing and one whose owner-text runs is present but an empty sequence
both yield an absent (`None`) channel name — the code does not
distinguish the two cases. (As stated the claim fails: the spec demands
the empty-sequence case yield the empty string — see the
counterexample.) -/
theorem claim5_channel_absent_vs_empty (vr1 vr2 ot : List (String × JVal))
    (it1 it2 : VideoItem)
    (h1 : olookup "ownerText" vr1 = none)
    (h2 : vrGet vr2 "ownerText" (.obj []) = .obj ot)
    (h3 : olookup "runs" ot = some (.arr []))
    (hn1 : normalizeVR vr1 = .ok (some it1))
    (hn2 : normalizeVR vr2 = .ok (some it2)) :
    it1.channel_name = JVal.null ∧ it2.channel_name = JVal.null := by
  have hc1 : channelOf vr1 = .ok .null := by
    simp [channelOf, dget, vrGet, h1, olookup, _text, truthy, Option.getD_none]
  have h2' : (olookup "ownerText" vr2).getD (.obj []) = .obj ot := by
    simpa [vrGet] using h2
  have hc2 : channelOf vr2 = .ok .null := by
    simp [channelOf, dget, vrGet, h2', h3, _text, truthy, Option.getD_some]
  have hf1 := (normalizeVR_fields hn1).2.2.2.2.1
  have hf2 := (normalizeVR_fields hn2).2.2.2.2.1
  rw [hc1] at hf1
  rw [hc2] at hf2
  injection hf1 with e1
  injection hf2 with e2
  exact ⟨e1.symm, e2.symm⟩

/-- A raw record with no owner-text field at all. -/
def ownerMissingVr : List (String × JVal) := [("videoId", .str "c4")]

/-- The canonical record `normalizeVR` emits for `ownerMissingVr`. -/
def ownerMissingItem : VideoItem :=
  { title := .str ""
    video_id := .str "c4"
    url := .str "https://www.youtube.com/watch?v=c4"
    channel_name := .null
    published_text := .null
    views_text := .null
    duration_text := .null
    description_text := .null }

/-- The canonical record `normalizeVR` emits for `ownerEmptyRunsVr`. -/
def ownerEmptyRunsItem : VideoItem :=
  { title := .str ""
    video_id := .str "c3"
    url := .str "https://www.youtube.com/watch?v=c3"
    channel_name := .null
    published_text := .null
    views_text := .null
    duration_text := .null
    description_text := .null }

/-- Instantiation of amended claim C5 on `ownerMissingVr` and
`ownerEmptyRunsVr`. -/
theorem claim5_witness :
    ownerMissingItem.channel_name = JVal.null ∧
    ownerEmptyRunsItem.channel_name = JVal.null :=
  claim5_channel_absent_vs_empty ownerMissingVr ownerEmptyRunsVr
    [("runs", .arr [])] ownerMissingItem ownerEmptyRunsItem
    rfl rfl rfl rfl rfl

/-- Claim C9: the Enricher preserves the length and order of the
canonical-record sequence and modifies only the `description_text`
field: the record at each index equals the input record at that index
with only its description replaced — set from the visit's result when it
succeeds, and left absent (`None`) when the visit fails, which never
disturbs the records at the other indices. -/
theorem claim9_enricher_frame (visit : Nat → JVal → Except PyErr JVal)
    (items : List VideoItem) :
    (enrich_with_descriptions visit items).length = items.length ∧
    ∀ i, i < items.length →
      (enrich_with_descriptions visit items).getD i default =
        { items.getD i default with
            description_text :=
              match visit i ((items.getD i default).url) with
              | .ok dsc => dsc
              | .error _ => JVal.null } := by
  refine ⟨enrichGo_length visit 0 items, fun i hi => ?_⟩
  unfold enrich_with_descriptions
  rw [enrichGo_getD visit default items 0 i hi]
  simp [enrichItem]

/-- Two canonical records for instantiating claim C9. -/
def enrichInputItems : List VideoItem :=
  [{ title := .str "t1"
     video_id := .str "e1"
     url := .str "https://www.youtube.com/watch?v=e1"
     channel_name := .str "chan1"
     published_text := .null
     views_text := .str "5 views"
     duration_text := .null
     description_text := .null },
   { title := .str "t2"
     video_id := .str "e2"
     url := .str "https://www.youtube.com/watch?v=e2"
     channel_name := .null
     published_text := .str "1 day ago"
     views_text := .null
     duration_text := .str "3:21"
     description_text := .null }]

/-- A visit oracle whose first visit fails and whose second succeeds. -/
def enrichVisit : Nat → JVal → Except PyErr JVal := fun i _ =>
  if i = 0 then .error .runtimeError else .ok (.str "a description")

/-- Instantiation of claim C9 on `enrichInputItems` with `enrichVisit`:
the failed first visit leaves that record unchanged except for an absent
description, and the successful second visit sets only the description. -/
theorem claim9_witness :
    (enrich_with_descriptions enrichVisit enrichInputItems).getD 0 default =
      { enrichInputItems.getD 0 default with
          description_text :=
            match enrichVisit 0 ((enrichInputItems.getD 0 default).url) with
            | .ok dsc => dsc
            | .error _ => JVal.null } ∧
    (enrich_with_descriptions enrichVisit enrichInputItems).getD 1 default =
      { enrichInputItems.getD 1 default with
          description_text :=
            match enrichVisit 1 ((enrichInputItems.getD 1 default).url) with
            | .ok dsc => dsc
            | .error _ => JVal.null } :=
  ⟨(claim9_enricher_frame enrichVisit enrichInputItems).2 0 (by decide),
   (claim9_enricher_frame enrichVisit enrichInputItems).2 1 (by decide)⟩

end Scrape
